import Mathlib

/-!
Verification development for the image-analysis function app (`function_app.py`).

The Python source is shallowly embedded: pure computations become Lean
functions on `Nat` / `Int` / `List`, external I/O (blob fetch, image decode,
table storage, clock, uuid) becomes explicit `Except` arguments or parameters,
and Python dicts with a fixed key set become structures (a key that is absent
on some code path becomes an `Option` field, `none` meaning "key absent").
Strings are modelled as `List Char`.
-/

/-- An RGB pixel as decoded by PIL in `RGB` mode: three 8-bit channels. -/
structure RGB where
  r : Nat
  g : Nat
  b : Nat
deriving DecidableEq, Repr

/-- Models `key = (r // 32 * 32, g // 32 * 32, b // 32 * 32)` (function_app.py line 104):
each channel floored to the nearest lower multiple of 32. -/
def quantize (p : RGB) : RGB :=
  ⟨p.r / 32 * 32, p.g / 32 * 32, p.b / 32 * 32⟩

/-- Adding one key to a Python dict's key sequence: dicts preserve insertion
order, so a fresh key goes to the back and an existing key changes nothing. -/
def insertKey (acc : List RGB) (k : RGB) : List RGB :=
  if k ∈ acc then acc else acc ++ [k]

/-- The key sequence of the `color_counts` dict built by the loop at
lines 102-105: quantized pixel values in order of first encounter. -/
def bucketKeys (qs : List RGB) : List RGB :=
  qs.foldl insertKey []

/-- The `color_counts` dict (lines 102-105) as an association list in
key-insertion order; the count of a key is the number of pixels whose
quantized value equals it. -/
def color_counts (qs : List RGB) : List (RGB × Nat) :=
  (bucketKeys qs).map fun k => (k, qs.count k)

/-- The ordering used by `sorted(color_counts.items(), key=lambda x: x[1],
reverse=True)` (line 107): descending by count. -/
def byCountDesc : RGB × Nat → RGB × Nat → Prop := fun a b => b.2 ≤ a.2

instance : DecidableRel byCountDesc := fun a b => inferInstanceAs (Decidable (b.2 ≤ a.2))

instance : IsTotal (RGB × Nat) byCountDesc := ⟨fun a b => Nat.le_total b.2 a.2⟩

instance : IsTrans (RGB × Nat) byCountDesc := ⟨fun _ _ _ h1 h2 => Nat.le_trans h2 h1⟩

/-- Models `sorted_colors` (line 107). Python's sort is stable, and a stable sort
under a total preorder has a unique result, so Mathlib's stable
`insertionSort` models `sorted(..., key=lambda x: x[1], reverse=True)`
exactly, including first-encounter order among equal counts. -/
def sorted_colors (qs : List RGB) : List (RGB × Nat) :=
  (color_counts qs).insertionSort byCountDesc

/-- Lower-case hex digit of a nibble (0-15). -/
def hexDigit (n : Nat) : Char :=
  if n < 10 then Char.ofNat (48 + n) else Char.ofNat (87 + n)

/-- Two-digit lower-case hex of a byte: Python `f"{v:02x}"` for `v < 256`. -/
def hexByte (v : Nat) : List Char :=
  [hexDigit (v / 16), hexDigit (v % 16)]

/-- Models `f"#{r:02x}{g:02x}{b:02x}"` (line 112) as a character list. -/
def hexColor (c : RGB) : List Char :=
  '#' :: (hexByte c.r ++ hexByte c.g ++ hexByte c.b)

/-- Models `round(count / len(pixels) * 100, 1)` (line 114) with `len(pixels) = 2500`,
expressed in tenths of a percent (so a value `p` here denotes the multiple of
0.1 equal to `p / 10` percent).  The exact value is `count * 1000 / 2500 =
2 * count / 5` tenths, whose fractional part is one of .0, .2, .4, .6, .8 -
never a half-way case - and the rounding error of the double-precision Python
expression (a few ulps) cannot bridge the remaining gap of at least 0.1 tenths
to a tie, so Python's `round` agrees with rounding the exact rational to the
nearest integer, which `(2 * count + 2) / 5` computes in Nat arithmetic. -/
def pctTenths (count : Nat) : Nat :=
  (2 * count + 2) / 5

/-- One entry of `dominantColors` (lines 111-115); `percentage` is in tenths
of a percent (see `pctTenths`). -/
structure ColorEntry where
  hex : List Char
  rgb : RGB
  percentage : Nat
deriving DecidableEq, Repr

/-- The dict returned by `analyze_colors` (lines 122-126 and 130); `error`
is `none` on the success path. -/
structure ColorResult where
  dominantColors : List ColorEntry
  isGrayscale : Bool
  totalPixelsSampled : Nat
  error : Option (List Char)
deriving DecidableEq, Repr

/-- Models `abs(r - g) < 30 and abs(g - b) < 30` (line 118). -/
def isNeutral (p : RGB) : Bool :=
  decide (((p.r : Int) - p.g).natAbs < 30 ∧ ((p.g : Int) - p.b).natAbs < 30)

/-- The `grayscale_pixels` count (lines 117-119). -/
def grayscale_pixels (ps : List RGB) : Nat :=
  ps.countP isNeutral

/-- Models `grayscale_pixels / len(pixels) > 0.9` (line 120), in exact arithmetic.
For `len(pixels) = 2500` the double-precision comparison agrees: the only
count whose exact ratio equals 0.9 is 2250, where `2250 / 2500` evaluates to
the same double as the literal `0.9` and the strict comparison is false
either way; every other count's ratio is at least 4e-4 away from 0.9, far
beyond double rounding error. -/
def is_grayscale (ps : List RGB) : Bool :=
  decide (10 * grayscale_pixels ps > 9 * ps.length)

/-- The `top_colors` list (lines 109-115): top five buckets by count. -/
def top_colors (qs : List RGB) : List ColorEntry :=
  ((sorted_colors qs).take 5).map fun kc => ⟨hexColor kc.1, kc.1, pctTenths kc.2⟩

/-- Models `analyze_colors` (lines 88-130).  Fetching the blob and decoding /
normalizing / resizing the image are external I/O, modelled by the `Except`
argument: `.ok` carries the flattened 50x50 sample grid from
`list(small_image.getdata())` - by construction of `resize((50, 50))` it
always has exactly 2500 entries, which theorems about the success path state
as the hypothesis `ps.length = 2500` - and `.error` is any exception raised
while fetching or processing, landing in the `except` branch (lines 128-130). -/
def analyze_colors (fetched : Except (List Char) (List RGB)) : ColorResult :=
  match fetched with
  | .error e => ⟨[], false, 0, some e⟩
  | .ok pixels =>
      let qs := pixels.map quantize
      ⟨top_colors qs, is_grayscale pixels, pixels.length, none⟩

/- ### Helper lemmas about the bucket-counting pass -/

theorem mem_foldl_insertKey (l : List RGB) : ∀ (acc : List RGB) (x : RGB),
    x ∈ l.foldl insertKey acc ↔ x ∈ acc ∨ x ∈ l := by
  induction l with
  | nil => intro acc x; simp
  | cons a t ih =>
      intro acc x
      rw [List.foldl_cons, ih]
      unfold insertKey
      by_cases h : a ∈ acc
      · simp only [if_pos h, List.mem_cons]
        constructor
        · rintro (hx | hx)
          · exact Or.inl hx
          · exact Or.inr (Or.inr hx)
        · rintro (hx | hx | hx)
          · exact Or.inl hx
          · exact Or.inl (hx ▸ h)
          · exact Or.inr hx
      · simp only [if_neg h, List.mem_append, List.mem_singleton, List.mem_cons]
        tauto

theorem nodup_foldl_insertKey (l : List RGB) : ∀ acc : List RGB,
    acc.Nodup → (l.foldl insertKey acc).Nodup := by
  induction l with
  | nil => intro acc h; simpa using h
  | cons a t ih =>
      intro acc h
      rw [List.foldl_cons]
      apply ih
      unfold insertKey
      by_cases ha : a ∈ acc
      · simpa [ha] using h
      · rw [if_neg ha, List.nodup_append]
        exact ⟨h, List.nodup_singleton a,
          fun x hx hxa => ha ((List.mem_singleton.mp hxa) ▸ hx)⟩

theorem countP_or_of_disjoint {α : Type} (p q : α → Bool) (l : List α)
    (h : ∀ x, ¬(p x = true ∧ q x = true)) :
    l.countP (fun x => p x || q x) = l.countP p + l.countP q := by
  induction l with
  | nil => simp
  | cons a t ih =>
      simp only [List.countP_cons, ih, Bool.or_eq_true]
      by_cases hp : p a = true
      · have hq : ¬ q a = true := fun hq => h a ⟨hp, hq⟩
        simp [hp, hq]
        omega
      · by_cases hq : q a = true
        · simp [hp, hq]
          omega
        · simp [hp, hq]

theorem sum_counts_eq_countP_mem (qs : List RGB) : ∀ keys : List RGB, keys.Nodup →
    (keys.map fun k => qs.count k).sum = qs.countP fun x => decide (x ∈ keys) := by
  intro keys
  induction keys with
  | nil => intro _; simp
  | cons k ks ih =>
      intro hnd
      rw [List.nodup_cons] at hnd
      rw [List.map_cons, List.sum_cons, ih hnd.2, List.count_eq_countP]
      have hdis : ∀ x : RGB, ¬((x == k) = true ∧ decide (x ∈ ks) = true) := by
        intro x hx
        exact hnd.1 ((beq_iff_eq.mp hx.1) ▸ (of_decide_eq_true hx.2))
      rw [← countP_or_of_disjoint (fun x => x == k) (fun x => decide (x ∈ ks)) qs hdis]
      apply List.countP_congr
      intro x _
      by_cases hxk : x = k <;> by_cases hxs : x ∈ ks <;>
        simp [hxk, hxs, List.mem_cons]

theorem sum_counts_le_length (qs keys : List RGB) (hnd : keys.Nodup) :
    (keys.map fun k => qs.count k).sum ≤ qs.length := by
  rw [sum_counts_eq_countP_mem qs keys hnd]
  exact List.countP_le_length _

theorem sum_color_counts_le (qs : List RGB) :
    ((color_counts qs).map Prod.snd).sum ≤ qs.length := by
  unfold color_counts
  rw [List.map_map]
  exact sum_counts_le_length qs (bucketKeys qs) (nodup_foldl_insertKey qs [] List.nodup_nil)

theorem count_in_sorted_le (qs : List RGB) (kc : RGB × Nat)
    (h : kc ∈ sorted_colors qs) : kc.2 ≤ qs.length := by
  have h2 : kc ∈ color_counts qs := ((List.perm_insertionSort byCountDesc _).mem_iff).mp h
  unfold color_counts at h2
  obtain ⟨k, _, rfl⟩ := List.mem_map.mp h2
  exact List.count_le_length k qs

theorem nat_div_add_div_le (a b n : Nat) (hn : 0 < n) : a / n + b / n ≤ (a + b) / n := by
  rw [Nat.le_div_iff_mul_le hn, Nat.add_mul]
  exact Nat.add_le_add (Nat.div_mul_le_self a n) (Nat.div_mul_le_self b n)

theorem sum_pctTenths_le (counts : List Nat) :
    (counts.map pctTenths).sum ≤ (2 * counts.sum + 2 * counts.length) / 5 := by
  induction counts with
  | nil => simp
  | cons c t ih =>
      simp only [List.map_cons, List.sum_cons, List.length_cons]
      calc pctTenths c + (t.map pctTenths).sum
          ≤ (2 * c + 2) / 5 + (2 * t.sum + 2 * t.length) / 5 :=
            Nat.add_le_add (Nat.le_refl _) ih
        _ ≤ ((2 * c + 2) + (2 * t.sum + 2 * t.length)) / 5 :=
            nat_div_add_div_le _ _ 5 (by omega)
        _ = (2 * (c + t.sum) + 2 * (t.length + 1)) / 5 := by
            congr 1
            ring

theorem sum_take_le (l : List Nat) (n : Nat) : (l.take n).sum ≤ l.sum := by
  conv_rhs => rw [← List.sum_take_add_sum_drop l n]
  exact Nat.le_add_right _ _

theorem sum_top5_counts_le (qs : List RGB) :
    (((sorted_colors qs).take 5).map Prod.snd).sum ≤ qs.length := by
  rw [List.map_take]
  calc (((sorted_colors qs).map Prod.snd).take 5).sum
      ≤ ((sorted_colors qs).map Prod.snd).sum := sum_take_le _ 5
    _ = ((color_counts qs).map Prod.snd).sum :=
        ((List.perm_insertionSort byCountDesc _).map Prod.snd).sum_eq
    _ ≤ qs.length := sum_color_counts_le qs

/-- Claim C2 (amended): for the 2500-sample grid of every successfully decoded
image, `dominantColors` has length at most 5, is ordered by descending bucket
count, each entry's percentage is `round(count/2500*100, 1)` - `pctTenths` of
its bucket's count, in tenths of a percent, hence a multiple of 0.1 - and lies
in [0, 100], and the percentages sum to at most 100.2 (1002 tenths).  The
original bound of 100, and the condition that the sum reaches 100 only when
all sampled pixels fall in the top-5 buckets, are refuted on the concrete
grids defined below. -/
theorem C2_dominantColors_amended (ps : List RGB) (hlen : ps.length = 2500) :
    (analyze_colors (.ok ps)).dominantColors.length ≤ 5 ∧
    List.Sorted (fun a b => b ≤ a)
      (((sorted_colors (ps.map quantize)).take 5).map Prod.snd) ∧
    (analyze_colors (.ok ps)).dominantColors.map ColorEntry.percentage =
      (((sorted_colors (ps.map quantize)).take 5).map Prod.snd).map pctTenths ∧
    (∀ e ∈ (analyze_colors (.ok ps)).dominantColors, e.percentage ≤ 1000) ∧
    ((analyze_colors (.ok ps)).dominantColors.map ColorEntry.percentage).sum ≤ 1002 := by
  have hq : (ps.map quantize).length = 2500 := by rw [List.length_map, hlen]
  have hdc : (analyze_colors (.ok ps)).dominantColors = top_colors (ps.map quantize) := rfl
  have hsorted : List.Sorted byCountDesc (sorted_colors (ps.map quantize)) :=
    List.sorted_insertionSort byCountDesc _
  have htake : List.Pairwise byCountDesc ((sorted_colors (ps.map quantize)).take 5) :=
    List.Pairwise.sublist (List.take_sublist 5 _) hsorted
  have hmapeq : (analyze_colors (.ok ps)).dominantColors.map ColorEntry.percentage =
      (((sorted_colors (ps.map quantize)).take 5).map Prod.snd).map pctTenths := by
    rw [hdc]
    unfold top_colors
    rw [List.map_map, List.map_map]
    rfl
  refine ⟨?_, ?_, hmapeq, ?_, ?_⟩
  · rw [hdc]
    unfold top_colors
    rw [List.length_map]
    exact List.length_take_le 5 _
  · exact List.pairwise_map.mpr htake
  · intro e he
    rw [hdc] at he
    unfold top_colors at he
    obtain ⟨kc, hkc, rfl⟩ := List.mem_map.mp he
    have hmem : kc ∈ sorted_colors (ps.map quantize) := List.mem_of_mem_take hkc
    have hc : kc.2 ≤ 2500 := hq ▸ count_in_sorted_le _ kc hmem
    show pctTenths kc.2 ≤ 1000
    unfold pctTenths
    omega
  · rw [hmapeq]
    have hsum : (((sorted_colors (ps.map quantize)).take 5).map Prod.snd).sum ≤ 2500 :=
      hq ▸ sum_top5_counts_le (ps.map quantize)
    have hlen5 : (((sorted_colors (ps.map quantize)).take 5).map Prod.snd).length ≤ 5 := by
      rw [List.length_map]
      exact List.length_take_le 5 _
    have hb := sum_pctTenths_le (((sorted_colors (ps.map quantize)).take 5).map Prod.snd)
    omega

/-- The sum conjunct of `C2_dominantColors_amended` applied at a concrete
2500-sample grid, discharging the length hypothesis. -/
theorem C2_dominantColors_amended_witness :
    (List.replicate 2500 (⟨10, 20, 30⟩ : RGB)).length = 2500 ∧
    (analyze_colors (.ok (List.replicate 2500 (⟨10, 20, 30⟩ : RGB)))).dominantColors.length ≤ 5 ∧
    ((analyze_colors (.ok (List.replicate 2500 (⟨10, 20, 30⟩ : RGB)))).dominantColors.map
      ColorEntry.percentage).sum ≤ 1002 := by
  have hlen : (List.replicate 2500 (⟨10, 20, 30⟩ : RGB)).length = 2500 := by
    rw [List.length_replicate]
  obtain ⟨h1, _, _, _, h5⟩ := C2_dominantColors_amended _ hlen
  exact ⟨hlen, h1, h5⟩

/- ### Concrete sample grids refuting the percentage-sum bound -/

theorem mem_insertKey_self (acc : List RGB) (x : RGB) : x ∈ insertKey acc x := by
  unfold insertKey
  by_cases h : x ∈ acc
  · rwa [if_pos h]
  · rw [if_neg h]
    exact List.mem_append_right _ (List.mem_singleton_self x)

theorem foldl_insertKey_replicate (n : Nat) (acc : List RGB) (x : RGB) (hx : x ∈ acc) :
    List.foldl insertKey acc (List.replicate n x) = acc := by
  induction n with
  | zero => rfl
  | succ m ih =>
      rw [List.replicate_succ, List.foldl_cons]
      have habs : insertKey acc x = acc := by
        unfold insertKey
        rw [if_pos hx]
      rw [habs]
      exact ih

theorem foldl_insertKey_replicate_pos (n : Nat) (hn : n ≠ 0) (acc : List RGB) (x : RGB) :
    List.foldl insertKey acc (List.replicate n x) = insertKey acc x := by
  obtain ⟨m, rfl⟩ := Nat.exists_eq_succ_of_ne_zero hn
  rw [List.replicate_succ, List.foldl_cons]
  exact foldl_insertKey_replicate m _ x (mem_insertKey_self acc x)

/-- Sample grid A: 504 samples in one bucket and 499 in each of four others -
2500 samples spread over exactly five buckets.  The rounded percentages are
20.2 and four times 20.0, summing to 100.2. -/
def cexPixelsA : List RGB :=
  List.replicate 504 ⟨0, 0, 0⟩ ++ List.replicate 499 ⟨32, 0, 0⟩ ++
  List.replicate 499 ⟨64, 0, 0⟩ ++ List.replicate 499 ⟨96, 0, 0⟩ ++
  List.replicate 499 ⟨128, 0, 0⟩

/-- Sample grid B: 499 samples in each of five buckets and 5 samples in a
sixth.  The top-5 rounded percentages are each 20.0, summing to exactly 100,
while the top-5 buckets hold only 2495 of the 2500 samples. -/
def cexPixelsB : List RGB :=
  List.replicate 499 ⟨0, 0, 0⟩ ++ List.replicate 499 ⟨32, 0, 0⟩ ++
  List.replicate 499 ⟨64, 0, 0⟩ ++ List.replicate 499 ⟨96, 0, 0⟩ ++
  List.replicate 499 ⟨128, 0, 0⟩ ++ List.replicate 5 ⟨160, 0, 0⟩

theorem map_quantize_cexA : cexPixelsA.map quantize = cexPixelsA := by
  unfold cexPixelsA
  simp only [List.map_append, List.map_replicate]
  norm_num [quantize]

theorem map_quantize_cexB : cexPixelsB.map quantize = cexPixelsB := by
  unfold cexPixelsB
  simp only [List.map_append, List.map_replicate]
  norm_num [quantize]

theorem bucketKeys_cexA :
    bucketKeys cexPixelsA = [⟨0, 0, 0⟩, ⟨32, 0, 0⟩, ⟨64, 0, 0⟩, ⟨96, 0, 0⟩, ⟨128, 0, 0⟩] := by
  unfold bucketKeys cexPixelsA
  rw [List.foldl_append, List.foldl_append, List.foldl_append, List.foldl_append,
      foldl_insertKey_replicate_pos 504 (by norm_num),
      foldl_insertKey_replicate_pos 499 (by norm_num),
      foldl_insertKey_replicate_pos 499 (by norm_num),
      foldl_insertKey_replicate_pos 499 (by norm_num),
      foldl_insertKey_replicate_pos 499 (by norm_num)]
  decide

theorem bucketKeys_cexB :
    bucketKeys cexPixelsB =
      [⟨0, 0, 0⟩, ⟨32, 0, 0⟩, ⟨64, 0, 0⟩, ⟨96, 0, 0⟩, ⟨128, 0, 0⟩, ⟨160, 0, 0⟩] := by
  unfold bucketKeys cexPixelsB
  rw [List.foldl_append, List.foldl_append, List.foldl_append, List.foldl_append,
      List.foldl_append,
      foldl_insertKey_replicate_pos 499 (by norm_num),
      foldl_insertKey_replicate_pos 499 (by norm_num),
      foldl_insertKey_replicate_pos 499 (by norm_num),
      foldl_insertKey_replicate_pos 499 (by norm_num),
      foldl_insertKey_replicate_pos 499 (by norm_num),
      foldl_insertKey_replicate_pos 5 (by norm_num)]
  decide

theorem color_counts_cexA :
    color_counts cexPixelsA =
      [(⟨0, 0, 0⟩, 504), (⟨32, 0, 0⟩, 499), (⟨64, 0, 0⟩, 499),
       (⟨96, 0, 0⟩, 499), (⟨128, 0, 0⟩, 499)] := by
  unfold color_counts
  rw [bucketKeys_cexA]
  simp only [List.map_cons, List.map_nil]
  norm_num [cexPixelsA, List.count_append, List.count_replicate]

theorem color_counts_cexB :
    color_counts cexPixelsB =
      [(⟨0, 0, 0⟩, 499), (⟨32, 0, 0⟩, 499), (⟨64, 0, 0⟩, 499),
       (⟨96, 0, 0⟩, 499), (⟨128, 0, 0⟩, 499), (⟨160, 0, 0⟩, 5)] := by
  unfold color_counts
  rw [bucketKeys_cexB]
  simp only [List.map_cons, List.map_nil]
  norm_num [cexPixelsB, List.count_append, List.count_replicate]

/-- Claim C2 counterexample: on grid A (2500 samples, five buckets of
504/499/499/499/499) the rounded percentages sum to 100.2 > 100, and on
grid B (2500 samples) they sum to exactly 100.0 while the top-5 buckets hold
only 2495 of the 2500 samples - refuting both the `sum <= 100` bound and the
"equal 100 only if all samples are in the top-5 buckets" condition. -/
theorem C2_percentage_sum_counterexample :
    cexPixelsA.length = 2500 ∧
    1000 < ((analyze_colors (.ok cexPixelsA)).dominantColors.map ColorEntry.percentage).sum ∧
    cexPixelsB.length = 2500 ∧
    ((analyze_colors (.ok cexPixelsB)).dominantColors.map ColorEntry.percentage).sum = 1000 ∧
    (((sorted_colors (cexPixelsB.map quantize)).take 5).map Prod.snd).sum = 2495 := by
  have hdc : ∀ ps : List RGB, (analyze_colors (.ok ps)).dominantColors =
      top_colors (ps.map quantize) := fun _ => rfl
  have hA := hdc cexPixelsA
  have hB := hdc cexPixelsB
  refine ⟨?_, ?_, ?_, ?_, ?_⟩
  · unfold cexPixelsA
    simp only [List.length_append, List.length_replicate]
  · rw [hA, map_quantize_cexA]
    unfold top_colors sorted_colors
    rw [color_counts_cexA]
    decide
  · unfold cexPixelsB
    simp only [List.length_append, List.length_replicate]
  · rw [hB, map_quantize_cexB]
    unfold top_colors sorted_colors
    rw [color_counts_cexB]
    decide
  · rw [map_quantize_cexB]
    unfold sorted_colors
    rw [color_counts_cexB]
    decide

/-- Claim C5: on any fetch, decode or processing failure, `analyze_colors`
returns the zero-value result - empty `dominantColors`, `isGrayscale` false,
`totalPixelsSampled` 0 - together with the error message.  Totality of the
Lean function models "never propagates an exception past its boundary". -/
theorem C5_color_error_path (e : List Char) :
    analyze_colors (.error e) = ⟨[], false, 0, some e⟩ := rfl

/-- Claim C8: a sample is neutral exactly when both |R-G| < 30 and |G-B| < 30;
the image is classified grayscale exactly when the neutral fraction strictly
exceeds 0.9; consequently an all-R=G=B sample grid is always grayscale. -/
theorem C8_grayscale (ps : List RGB) (hlen : ps.length = 2500) :
    (∀ p : RGB, isNeutral p = true ↔ |(p.r : ℤ) - p.g| < 30 ∧ |(p.g : ℤ) - p.b| < 30) ∧
    ((analyze_colors (.ok ps)).isGrayscale = true ↔
      (9 : ℚ) / 10 < (grayscale_pixels ps : ℚ) / 2500) ∧
    ((∀ p ∈ ps, p.r = p.g ∧ p.g = p.b) → (analyze_colors (.ok ps)).isGrayscale = true) := by
  have hneutral : ∀ p : RGB, isNeutral p = true ↔
      |(p.r : ℤ) - p.g| < 30 ∧ |(p.g : ℤ) - p.b| < 30 := by
    intro p
    unfold isNeutral
    rw [decide_eq_true_iff, abs_lt, abs_lt]
    omega
  have hgs : (analyze_colors (.ok ps)).isGrayscale = is_grayscale ps := rfl
  have hiff : (analyze_colors (.ok ps)).isGrayscale = true ↔
      (9 : ℚ) / 10 < (grayscale_pixels ps : ℚ) / 2500 := by
    rw [hgs]
    unfold is_grayscale
    rw [decide_eq_true_iff, hlen]
    rw [div_lt_div_iff₀ (by norm_num) (by norm_num)]
    rw [show ((9 : ℚ) * 2500) = ((22500 : Nat) : ℚ) by norm_num,
        show ((grayscale_pixels ps : ℚ) * 10) = (((grayscale_pixels ps * 10 : Nat)) : ℚ) by
          push_cast; ring,
        Nat.cast_lt]
    omega
  refine ⟨hneutral, hiff, ?_⟩
  intro hall
  rw [hgs]
  unfold is_grayscale
  rw [decide_eq_true_iff]
  have hcnt : grayscale_pixels ps = ps.length := by
    unfold grayscale_pixels
    rw [List.countP_eq_length]
    intro p hp
    unfold isNeutral
    rw [decide_eq_true_iff]
    obtain ⟨h1, h2⟩ := hall p hp
    omega
  rw [hcnt, hlen]
  norm_num

/-- The grayscale-monotonicity conjunct of `C8_grayscale` applied at a
concrete all-gray 2500-sample grid. -/
theorem C8_grayscale_witness :
    (List.replicate 2500 (⟨7, 7, 7⟩ : RGB)).length = 2500 ∧
    (∀ p ∈ List.replicate 2500 (⟨7, 7, 7⟩ : RGB), p.r = p.g ∧ p.g = p.b) ∧
    (analyze_colors (.ok (List.replicate 2500 (⟨7, 7, 7⟩ : RGB)))).isGrayscale = true := by
  have hlen : (List.replicate 2500 (⟨7, 7, 7⟩ : RGB)).length = 2500 := by
    rw [List.length_replicate]
  have hg : ∀ p ∈ List.replicate 2500 (⟨7, 7, 7⟩ : RGB), p.r = p.g ∧ p.g = p.b := by
    intro p hp
    rw [List.eq_of_mem_replicate hp]
    exact ⟨rfl, rfl⟩
  exact ⟨hlen, hg, (C8_grayscale _ hlen).2.2 hg⟩

/- ## Jobs and the remaining analyzers -/

/-- The orchestration input built by the blob trigger (lines 52-55):
`{"blob_name": ..., "blob_size_kb": ...}`.  `blob_size_kb` is
`round(myblob.length / 1024, 2)`, an arbitrary rational here. -/
structure Job where
  blob_name : List Char
  blob_size_kb : ℚ
deriving DecidableEq, Repr

/-- What PIL exposes of a decoded image to `analyze_objects` and
`analyze_metadata`: dimensions, detected format (`image.format` is `None`
when PIL cannot tell, hence `Option`), and color mode. -/
structure ImageInfo where
  width : Nat
  height : Nat
  format : Option (List Char)
  mode : List Char
deriving DecidableEq, Repr

/-- One `{"name": ..., "confidence": ...}` tag (lines 145-154); confidence in
hundredths (0.85 becomes 85) - the code only ever stores the constants 0.85,
0.82, 0.90, 0.78, 0.99, all exactly two decimals. -/
structure DetectedObject where
  name : List Char
  confidence : Nat
deriving DecidableEq, Repr

/-- The dict returned by `analyze_objects` (line 156 on success, line 160 on
failure); `note` is present only on the success path, `error` only on the
failure path (`none` = key absent). -/
structure ObjectResult where
  objects : List DetectedObject
  objectCount : Nat
  note : Option (List Char)
  error : Option (List Char)
deriving DecidableEq, Repr

/-- Models `analyze_objects` (lines 134-160); fetching and decoding the image is
external I/O, modelled by the `Except` argument. -/
def analyze_objects (fetched : Except (List Char) ImageInfo) : ObjectResult :=
  match fetched with
  | .error e => ⟨[], 0, none, some e⟩
  | .ok img =>
      let aspect : DetectedObject :=
        if img.width > img.height then ⟨("landscape".data), 85⟩
        else if img.height > img.width then ⟨("portrait".data), 82⟩
        else ⟨("square composition".data), 90⟩
      let withRes :=
        if img.width * img.height > 1000000 then
          [aspect] ++ [⟨("high-resolution scene".data), 78⟩]
        else [aspect]
      let objs := withRes ++ [⟨("digital image".data), 99⟩]
      ⟨objs, objs.length, some ("Mock analysis".data), none⟩

/-- Claim C6: on success the first tag classifies the aspect ratio with the
stated confidences, the high-resolution tag is present exactly when
width*height exceeds 1,000,000 (and then sits at position 1), the last tag is
always the digital-image tag, and `objectCount` is the length of the list; on
fetch/decode failure the result is an empty list plus the error. -/
theorem C6_objects (img : ImageInfo) (e : List Char) :
    (img.width > img.height →
      (analyze_objects (.ok img)).objects.head? = some ⟨("landscape".data), 85⟩) ∧
    (img.height > img.width →
      (analyze_objects (.ok img)).objects.head? = some ⟨("portrait".data), 82⟩) ∧
    (img.width = img.height →
      (analyze_objects (.ok img)).objects.head? = some ⟨("square composition".data), 90⟩) ∧
    ((⟨("high-resolution scene".data), 78⟩ : DetectedObject) ∈
        (analyze_objects (.ok img)).objects ↔ img.width * img.height > 1000000) ∧
    (img.width * img.height > 1000000 →
      (analyze_objects (.ok img)).objects.get? 1 = some ⟨("high-resolution scene".data), 78⟩) ∧
    ((analyze_objects (.ok img)).objects.getLast? = some ⟨("digital image".data), 99⟩) ∧
    ((analyze_objects (.ok img)).objectCount = (analyze_objects (.ok img)).objects.length) ∧
    (analyze_objects (.error e) = ⟨[], 0, none, some e⟩) := by
  unfold analyze_objects
  by_cases h1 : img.width > img.height <;>
    by_cases h2 : img.height > img.width <;>
      by_cases h3 : img.width * img.height > 1000000 <;>
        simp only [h1, h2, h3, if_pos, if_neg, if_true, if_false, not_false_iff,
          List.head?_cons, List.getLast?_concat, List.cons_append, List.nil_append,
          List.length_append, List.length_cons, List.length_nil, List.mem_cons,
          List.mem_singleton, List.not_mem_nil, gt_iff_lt] <;>
        refine ⟨?_, ?_, ?_, ?_, ?_, ?_, ?_, ?_⟩ <;>
        first
          | rfl
          | (intro h; omega)
          | (intro h; rfl)
          | decide
          | simp

/-- Witness: `C6_objects` applied at a concrete 100x50 landscape image, discharging
the aspect hypothesis. -/
theorem C6_objects_witness :
    (100 : Nat) > 50 ∧
    (analyze_objects (.ok ⟨100, 50, none, ("RGB".data)⟩)).objects.head? =
      some ⟨("landscape".data), 85⟩ := by
  have h := C6_objects ⟨100, 50, none, ("RGB".data)⟩ []
  exact ⟨by norm_num, h.1 (by norm_num)⟩

/-- The dict returned by `analyze_metadata` (lines 182-190 on success,
line 194 on failure).  Keys absent on the failure path (`mode`,
`totalPixels`, `megapixels`, `sizeKB`) are `Option` fields, `none` meaning
"key absent from the returned dict".  `megapixels` is in hundredths. -/
structure MetadataResult where
  width : Nat
  height : Nat
  format : List Char
  mode : Option (List Char)
  totalPixels : Option Nat
  megapixels : Option Nat
  sizeKB : Option ℚ
  error : Option (List Char)
deriving DecidableEq, Repr

/-- Models `round(total_pixels / 1_000_000, 2)` (line 188), in hundredths of a
megapixel: the exact value is `tp / 10000` hundredths, rounded here half to
even.  (At an exact tie - `tp % 10000 = 5000` - CPython's result depends on
the binary representation of the double `tp / 1e6` and can deviate from half
to even; claim C7's spec sentence states the same Python expression as the
code, so both sides of the claim use this one model and the tie behavior
does not affect the claim.) -/
def megapixelsHundredths (tp : Nat) : Nat :=
  if 2 * (tp % 10000) < 10000 then tp / 10000
  else if 2 * (tp % 10000) > 10000 then tp / 10000 + 1
  else if tp / 10000 % 2 = 0 then tp / 10000 else tp / 10000 + 1

/-- Models `analyze_metadata` (lines 171-194); fetching and decoding is external
I/O, modelled by the `Except` argument; the Job supplies `blob_size_kb` for
the `sizeKB` pass-through (`inputData.get("blob_size_kb")`, line 189). -/
def analyze_metadata (job : Job) (fetched : Except (List Char) ImageInfo) : MetadataResult :=
  match fetched with
  | .error e => ⟨0, 0, ("Unknown".data), none, none, none, none, some e⟩
  | .ok img =>
      ⟨img.width, img.height, img.format.getD ("Unknown".data), some img.mode,
       some (img.width * img.height),
       some (megapixelsHundredths (img.width * img.height)),
       some job.blob_size_kb, none⟩

/-- Claim C7: on every successful decode the Metadata Analyzer returns the
image's width and height, the detected format with fallback "Unknown", the
color mode, `totalPixels = width*height`, `megapixels =
round(width*height/1_000_000, 2)`, and `sizeKB` equal to the Job's
`blob_size_kb` unchanged. -/
theorem C7_metadata_success (job : Job) (img : ImageInfo) :
    (analyze_metadata job (.ok img)).width = img.width ∧
    (analyze_metadata job (.ok img)).height = img.height ∧
    (img.format = none → (analyze_metadata job (.ok img)).format = ("Unknown".data)) ∧
    (∀ f, img.format = some f → (analyze_metadata job (.ok img)).format = f) ∧
    (analyze_metadata job (.ok img)).mode = some img.mode ∧
    (analyze_metadata job (.ok img)).totalPixels = some (img.width * img.height) ∧
    (analyze_metadata job (.ok img)).megapixels =
      some (megapixelsHundredths (img.width * img.height)) ∧
    (analyze_metadata job (.ok img)).sizeKB = some job.blob_size_kb := by
  refine ⟨rfl, rfl, ?_, ?_, rfl, rfl, rfl, rfl⟩
  · intro h
    show img.format.getD ("Unknown".data) = ("Unknown".data)
    rw [h]
    rfl
  · intro f h
    show img.format.getD ("Unknown".data) = f
    rw [h]
    rfl

/-- Witness: `C7_metadata_success` applied at a concrete image with no detected
format, discharging the format hypothesis. -/
theorem C7_metadata_success_witness :
    ((⟨100, 50, none, ("RGB".data)⟩ : ImageInfo).format = none) ∧
    (analyze_metadata ⟨("images/a.jpg".data), 12⟩ (.ok ⟨100, 50, none, ("RGB".data)⟩)).format =
      ("Unknown".data) ∧
    (analyze_metadata ⟨("images/a.jpg".data), 12⟩ (.ok ⟨100, 50, none, ("RGB".data)⟩)).sizeKB =
      some 12 := by
  have h := C7_metadata_success ⟨("images/a.jpg".data), 12⟩ ⟨100, 50, none, ("RGB".data)⟩
  exact ⟨rfl, h.2.2.1 rfl, h.2.2.2.2.2.2.2⟩

/-- Claim C10: on any failure the Metadata Analyzer's dict holds exactly
width 0, height 0, format "Unknown" and the error; `mode`, `totalPixels`,
`megapixels` and `sizeKB` are absent (`none`), so `sizeKB` is not carried
through from the Job on failure. -/
theorem C10_metadata_error_shape (job : Job) (e : List Char) :
    analyze_metadata job (.error e) =
      ⟨0, 0, ("Unknown".data), none, none, none, none, some e⟩ ∧
    (analyze_metadata job (.error e)).sizeKB ≠ some job.blob_size_kb := by
  refine ⟨rfl, ?_⟩
  intro h
  exact Option.noConfusion h

/- ## Report Builder -/

/-- One step of `str.split("/")`, consuming one character from the front:
a slash opens a fresh empty segment, any other character is prepended to the
current first segment.  (The `[]` case of the match is unreachable: the fold
below starts from `[[]]` and every step returns a non-empty list.) -/
def splitStep (c : Char) (acc : List (List Char)) : List (List Char) :=
  if c = '/' then [] :: acc
  else
    match acc with
    | [] => [[c]]
    | h :: t => (c :: h) :: t

/-- Models `blob_name.split("/")` (line 203): always non-empty, one segment more
than the number of slashes. -/
def split_on_slash (s : List Char) : List (List Char) :=
  s.foldr splitStep [[]]

/-- Models `blob_name.split("/")[-1] if "/" in blob_name else blob_name`
(line 203); Python's `[-1]` on the always-non-empty split result is
`getLastD`. -/
def report_fileName (blob_name : List Char) : List Char :=
  if '/' ∈ blob_name then (split_on_slash blob_name).getLastD [] else blob_name

theorem split_on_slash_ne_nil (s : List Char) : split_on_slash s ≠ [] := by
  induction s with
  | nil => simp [split_on_slash]
  | cons c rest ih =>
      show splitStep c (split_on_slash rest) ≠ []
      unfold splitStep
      by_cases hc : c = '/'
      · simp [hc]
      · rw [if_neg hc]
        obtain ⟨h0, t0, ht0⟩ := List.exists_cons_of_ne_nil ih
        rw [ht0]
        simp

theorem split_on_slash_no_slash (s : List Char) (h : '/' ∉ s) :
    split_on_slash s = [s] := by
  induction s with
  | nil => rfl
  | cons c rest ih =>
      have hc : c ≠ '/' := fun hc => h (hc ▸ List.mem_cons_self c rest)
      have hrest : '/' ∉ rest := fun hr => h (List.mem_cons_of_mem c hr)
      show splitStep c (split_on_slash rest) = [c :: rest]
      rw [ih hrest]
      unfold splitStep
      rw [if_neg hc]

theorem length_split_on_slash (s : List Char) :
    (split_on_slash s).length = s.count '/' + 1 := by
  induction s with
  | nil => rfl
  | cons c rest ih =>
      show (splitStep c (split_on_slash rest)).length = _
      unfold splitStep
      by_cases hc : c = '/'
      · rw [if_pos hc, List.length_cons, ih, hc, List.count_cons_self]
      · rw [if_neg hc]
        obtain ⟨h0, t0, ht0⟩ := List.exists_cons_of_ne_nil (split_on_slash_ne_nil rest)
        rw [ht0, List.count_cons_of_ne (fun hcc => hc hcc.symm) rest, ← ih, ht0,
          List.length_cons, List.length_cons]

theorem getLastD_of_ne_nil {α : Type} (l : List α) (h : l ≠ []) (d1 d2 : α) :
    l.getLastD d1 = l.getLastD d2 := by
  obtain ⟨b, M, rfl⟩ := List.exists_cons_of_ne_nil h
  rw [List.getLastD_cons, List.getLastD_cons]

/-- Structure of the last segment of a split: the name is some prefix, a
slash, then the last segment, which itself contains no slash. -/
theorem split_last_spec (s : List Char) (h : '/' ∈ s) :
    ∃ pre : List Char,
      s = pre ++ '/' :: (split_on_slash s).getLastD [] ∧
      '/' ∉ (split_on_slash s).getLastD [] := by
  induction s with
  | nil => cases h
  | cons c rest ih =>
      by_cases hc : c = '/'
      · subst hc
        have hsplit : split_on_slash ('/' :: rest) = [] :: split_on_slash rest := by
          show splitStep '/' (split_on_slash rest) = _
          unfold splitStep
          rw [if_pos rfl]
        by_cases hr : '/' ∈ rest
        · obtain ⟨pre, hpre, hlast⟩ := ih hr
          have hLD : (split_on_slash ('/' :: rest)).getLastD [] =
              (split_on_slash rest).getLastD [] := by
            rw [hsplit, List.getLastD_cons]
          refine ⟨'/' :: pre, ?_, ?_⟩
          · rw [hLD, List.cons_append, ← hpre]
          · rw [hLD]
            exact hlast
        · have hLD : (split_on_slash ('/' :: rest)).getLastD [] = rest := by
            rw [hsplit, split_on_slash_no_slash rest hr, List.getLastD_cons,
              List.getLastD_cons, List.getLastD_nil]
          refine ⟨[], ?_, ?_⟩
          · rw [hLD, List.nil_append]
          · rw [hLD]
            exact hr
      · have hr : '/' ∈ rest := by
          rcases List.mem_cons.mp h with h' | h'
          · exact absurd h'.symm hc
          · exact h'
        obtain ⟨pre, hpre, hlast⟩ := ih hr
        obtain ⟨h0, t0, ht0⟩ := List.exists_cons_of_ne_nil (split_on_slash_ne_nil rest)
        have ht0ne : t0 ≠ [] := by
          intro ht
          have hlen := length_split_on_slash rest
          have hcnt : 0 < rest.count '/' := List.count_pos_iff.mpr hr
          rw [ht0, ht, List.length_cons, List.length_nil] at hlen
          omega
        obtain ⟨t1, ts, hts⟩ := List.exists_cons_of_ne_nil ht0ne
        have hsplit : split_on_slash (c :: rest) = (c :: h0) :: t0 := by
          show splitStep c (split_on_slash rest) = _
          unfold splitStep
          rw [if_neg hc, ht0]
        have hLD : (split_on_slash (c :: rest)).getLastD [] =
            (split_on_slash rest).getLastD [] := by
          rw [hsplit, ht0, hts, List.getLastD_cons, List.getLastD_cons,
            List.getLastD_cons, List.getLastD_cons]
        refine ⟨c :: pre, ?_, ?_⟩
        · rw [hLD, List.cons_append, ← hpre]
        · rw [hLD]
          exact hlast

/-- The fixed placeholder returned by `analyze_text` (lines 163-167);
`confidence` in hundredths (0.0 becomes 0). -/
structure TextResult where
  hasText : Bool
  extractedText : List Char
  confidence : Nat
  language : List Char
  note : Option (List Char)
deriving DecidableEq, Repr

/-- Models `analyze_text` (lines 163-167): the mock OCR result, unconditionally. -/
def analyze_text : TextResult :=
  ⟨false, [], 0, ("unknown".data), some ("Mock OCR".data)⟩

/-- The `summary` sub-dict of a report (lines 216-224). -/
structure Summary where
  imageSize : List Char
  format : List Char
  dominantColor : List Char
  objectsDetected : Nat
  hasText : Bool
  isGrayscale : Bool
deriving DecidableEq, Repr

/-- The report dict (lines 205-225).  The `analyses` sub-dict is flattened
into the four analyzer fields; `analyzedAt` abstracts the ISO-8601 UTC
timestamp string as a Nat (fixed-format ISO-8601 strings compare
lexicographically in chronological order). -/
structure Report where
  id : List Char
  fileName : List Char
  blobPath : List Char
  analyzedAt : Nat
  colors : ColorResult
  objects : ObjectResult
  text : TextResult
  metadata : MetadataResult
  summary : Summary
deriving DecidableEq, Repr

/-- Decimal digits of a positive Nat, most significant first, accumulated
from the right. -/
def natDigitsAux : Nat → List Char → List Char
  | 0, acc => acc
  | n + 1, acc => natDigitsAux ((n + 1) / 10) (hexDigit ((n + 1) % 10) :: acc)
decreasing_by exact Nat.div_lt_self (Nat.succ_pos n) (by norm_num)

/-- Python `str(n)` for a Nat. -/
def natToChars (n : Nat) : List Char :=
  if n = 0 then ['0'] else natDigitsAux n []

/-- Models `f"{width}x{height}"` (line 217).  The `.get('width', 0)` /
`.get('height', 0)` defaults never fire: both shapes of the metadata dict
carry the keys (0 on the failure path). -/
def imageSizeStr (w h : Nat) : List Char :=
  natToChars w ++ 'x' :: natToChars h

/-- Models `generate_report` (lines 198-227).  `uuid.uuid4()` and
`datetime.utcnow()` are environment effects, passed in as the `id` and
`analyzedAt` parameters.  `summary.format` uses
`metadata.get("format", "Unknown")` whose default never fires - both shapes
of the metadata dict carry `format` - so it is `metadata.format` here. -/
def generate_report (blob_name : List Char) (colors : ColorResult)
    (objects : ObjectResult) (text : TextResult) (metadata : MetadataResult)
    (id : List Char) (analyzedAt : Nat) : Report :=
  { id := id
    fileName := report_fileName blob_name
    blobPath := blob_name
    analyzedAt := analyzedAt
    colors := colors
    objects := objects
    text := text
    metadata := metadata
    summary :=
      { imageSize := imageSizeStr metadata.width metadata.height
        format := metadata.format
        dominantColor :=
          match colors.dominantColors with
          | [] => ("N/A".data)
          | entry :: _ => entry.hex
        objectsDetected := objects.objectCount
        hasText := text.hasText
        isGrayscale := colors.isGrayscale } }

/-- Claim C3: `fileName` is the substring after the last path separator of
`blob_name` (the whole name when it has no separator);
`summary.dominantColor` is the hex of the first dominant color, or "N/A"
when the list is empty; and two invocations on the same analyzer inputs -
identifier and timestamp aside - yield identical `summary` and analyses.
Totality of the Lean function models that it never fails on well-formed,
possibly error-flagged, analyzer results. -/
theorem C3_generate_report (blob_name : List Char) (colors : ColorResult)
    (objects : ObjectResult) (text : TextResult) (metadata : MetadataResult)
    (id₁ id₂ : List Char) (ts₁ ts₂ : Nat) :
    ('/' ∉ blob_name →
      (generate_report blob_name colors objects text metadata id₁ ts₁).fileName =
        blob_name) ∧
    ('/' ∈ blob_name → ∃ pre : List Char,
      blob_name = pre ++ '/' ::
          (generate_report blob_name colors objects text metadata id₁ ts₁).fileName ∧
      '/' ∉ (generate_report blob_name colors objects text metadata id₁ ts₁).fileName) ∧
    (colors.dominantColors = [] →
      (generate_report blob_name colors objects text metadata id₁ ts₁).summary.dominantColor =
        ("N/A".data)) ∧
    (∀ entry rest, colors.dominantColors = entry :: rest →
      (generate_report blob_name colors objects text metadata id₁ ts₁).summary.dominantColor =
        entry.hex) ∧
    ((generate_report blob_name colors objects text metadata id₁ ts₁).summary =
      (generate_report blob_name colors objects text metadata id₂ ts₂).summary) ∧
    ((generate_report blob_name colors objects text metadata id₁ ts₁).colors =
        (generate_report blob_name colors objects text metadata id₂ ts₂).colors ∧
      (generate_report blob_name colors objects text metadata id₁ ts₁).objects =
        (generate_report blob_name colors objects text metadata id₂ ts₂).objects ∧
      (generate_report blob_name colors objects text metadata id₁ ts₁).text =
        (generate_report blob_name colors objects text metadata id₂ ts₂).text ∧
      (generate_report blob_name colors objects text metadata id₁ ts₁).metadata =
        (generate_report blob_name colors objects text metadata id₂ ts₂).metadata) := by
  refine ⟨?_, ?_, ?_, ?_, rfl, rfl, rfl, rfl, rfl⟩
  · intro h
    show report_fileName blob_name = blob_name
    unfold report_fileName
    rw [if_neg h]
  · intro h
    have hfn : (generate_report blob_name colors objects text metadata id₁ ts₁).fileName =
        (split_on_slash blob_name).getLastD [] := by
      show report_fileName blob_name = _
      unfold report_fileName
      rw [if_pos h]
    rw [hfn]
    exact split_last_spec blob_name h
  · intro h
    show (match colors.dominantColors with
      | [] => ("N/A".data)
      | entry :: _ => entry.hex) = ("N/A".data)
    rw [h]
  · intro entry rest h
    show (match colors.dominantColors with
      | [] => ("N/A".data)
      | entry :: _ => entry.hex) = entry.hex
    rw [h]

/-- Witness: `C3_generate_report` applied at a concrete blob path with a separator,
discharging the membership hypothesis. -/
theorem C3_generate_report_witness :
    '/' ∈ ("images/photo.jpg".data) ∧
    (∃ pre : List Char,
      ("images/photo.jpg".data) = pre ++ '/' ::
          (generate_report ("images/photo.jpg".data) ⟨[], false, 0, none⟩
            ⟨[], 0, none, none⟩ analyze_text
            ⟨0, 0, ("Unknown".data), none, none, none, none, none⟩
            ("id-1".data) 0).fileName ∧
      '/' ∉ (generate_report ("images/photo.jpg".data) ⟨[], false, 0, none⟩
            ⟨[], 0, none, none⟩ analyze_text
            ⟨0, 0, ("Unknown".data), none, none, none, none, none⟩
            ("id-1".data) 0).fileName) := by
  have hmem : '/' ∈ ("images/photo.jpg".data) := by decide
  exact ⟨hmem,
    (C3_generate_report ("images/photo.jpg".data) ⟨[], false, 0, none⟩
      ⟨[], 0, none, none⟩ analyze_text
      ⟨0, 0, ("Unknown".data), none, none, none, none, none⟩
      ("id-1".data) ("id-1".data) 0 0).2.1 hmem⟩

/- ## Result store and query endpoint -/

/-- A JSON value, as produced by `json.dumps` and consumed by `json.loads`:
response bodies and stored sub-documents are modelled structurally, the
dumps/loads round-trip being the identity on the structured value. -/
inductive Json where
  | str (s : List Char)
  | num (n : Nat)
  | boolean (b : Bool)
  | null
  | arr (items : List Json)
  | obj (fields : List (List Char × Json))

/-- The entity persisted by `store_results` (lines 237-248), as read back by
the query endpoint: flat scalar columns plus the serialized sub-documents.
`analyzedAt` abstracts the ISO-8601 timestamp string as a Nat, as in
`Report` (fixed-format ISO-8601 compares lexicographically in chronological
order). -/
structure StoredEntity where
  rowKey : List Char
  fileName : List Char
  blobPath : List Char
  analyzedAt : Nat
  summary : Json
  colorAnalysis : Json
  objectAnalysis : Json
  textAnalysis : Json
  metadataAnalysis : Json

/-- Models `table_client.get_entity(PARTITION_KEY, result_id)` (line 266) over the
table modelled as the list of entities in the single partition: raises
`ResourceNotFoundError` on a miss, modelled as `.error`. -/
def get_entity (table : List StoredEntity) (result_id : List Char) :
    Except (List Char) StoredEntity :=
  match table.find? (fun ent => ent.rowKey == result_id) with
  | some ent => .ok ent
  | none => .error ("ResourceNotFoundError".data)

/-- Models `func.HttpResponse`: body (a JSON value), mimetype, status code. -/
structure HttpResponse where
  body : Json
  mimetype : List Char
  status_code : Nat

/-- The single-report JSON built on the id path (lines 267-279). -/
def entityJson (ent : StoredEntity) : Json :=
  .obj [(("id".data), .str ent.rowKey),
        (("fileName".data), .str ent.fileName),
        (("blobPath".data), .str ent.blobPath),
        (("analyzedAt".data), .num ent.analyzedAt),
        (("summary".data), ent.summary),
        (("analyses".data), .obj
          [(("colors".data), ent.colorAnalysis),
           (("objects".data), ent.objectAnalysis),
           (("text".data), ent.textAnalysis),
           (("metadata".data), ent.metadataAnalysis)])]

/-- One element of the `results` list of the list path (lines 285-290). -/
structure QueryRecord where
  id : List Char
  fileName : List Char
  analyzedAt : Nat
  summary : Json

def project_entity (e : StoredEntity) : QueryRecord :=
  ⟨e.rowKey, e.fileName, e.analyzedAt, e.summary⟩

/-- The ordering of `results.sort(key=lambda x: x["analyzedAt"],
reverse=True)` (line 292): most recent first. -/
def byRecentFirst : QueryRecord → QueryRecord → Prop :=
  fun a b => b.analyzedAt ≤ a.analyzedAt

instance : DecidableRel byRecentFirst :=
  fun a b => inferInstanceAs (Decidable (b.analyzedAt ≤ a.analyzedAt))

instance : IsTotal QueryRecord byRecentFirst := ⟨fun a b => Nat.le_total b.analyzedAt a.analyzedAt⟩

instance : IsTrans QueryRecord byRecentFirst := ⟨fun _ _ _ h1 h2 => Nat.le_trans h2 h1⟩

def recordJson (r : QueryRecord) : Json :=
  .obj [(("id".data), .str r.id),
        (("fileName".data), .str r.fileName),
        (("analyzedAt".data), .num r.analyzedAt),
        (("summary".data), r.summary)]

/-- The `try` body of `get_results` (lines 261-299).  `result_id` is the
optional route parameter; `limitParam` is the parsed numeric `limit` query
parameter (`none` = absent, defaulting to `int("10")`); the table itself is
an `Except` so that infrastructure failures (`get_table_client`, line 262)
are exceptions too.  Python's in-place stable `list.sort` is modelled by
`insertionSort` as in `sorted_colors`. -/
def get_results_body (table : Except (List Char) (List StoredEntity))
    (result_id : Option (List Char)) (limitParam : Option Nat) :
    Except (List Char) HttpResponse :=
  match table with
  | .error e => .error e
  | .ok t =>
      match result_id with
      | some rid =>
          match get_entity t rid with
          | .error e => .error e
          | .ok ent => .ok ⟨entityJson ent, ("application/json".data), 200⟩
      | none =>
          let limit := limitParam.getD 10
          let results := (t.map project_entity).insertionSort byRecentFirst
          let truncated := results.take limit
          .ok ⟨.obj [(("count".data), .num truncated.length),
                     (("results".data), .arr (truncated.map recordJson))],
               ("application/json".data), 200⟩

/-- Models `get_results` (lines 256-303): the `except` handler at lines 301-303
turns any exception from the body into `json.dumps({"error": str(e)})` with
status 500. -/
def get_results (table : Except (List Char) (List StoredEntity))
    (result_id : Option (List Char)) (limitParam : Option Nat) : HttpResponse :=
  match get_results_body table result_id limitParam with
  | .ok resp => resp
  | .error e => ⟨.obj [(("error".data), .str e)], ("application/json".data), 500⟩

/-- Claim C4 counterexample: looking up a nonexistent id returns status 500,
not 200 - the code's `except` branch (line 303) passes `status_code=500`. -/
theorem C4_status_counterexample :
    (get_results (.ok []) (some ("missing-id".data)) none).status_code = 500 ∧
    (get_results (.ok []) (some ("missing-id".data)) none).status_code ≠ 200 := by
  refine ⟨rfl, ?_⟩
  intro h
  rw [show (get_results (.ok []) (some ("missing-id".data)) none).status_code = 500
    from rfl] at h
  omega

/-- Claim C4 (amended): when any internal exception occurs while handling a
request, the query endpoint returns a **500** response with the JSON error
body `{"error": ...}`; a lookup of a nonexistent id raises inside the same
`try` and is caught by the same handler, so it produces exactly that
response shape and status. -/
theorem C4_error_responses_amended :
    (∀ (table : Except (List Char) (List StoredEntity)) (rid : Option (List Char))
        (lim : Option Nat) (e : List Char),
      get_results_body table rid lim = .error e →
        get_results table rid lim =
          ⟨.obj [(("error".data), .str e)], ("application/json".data), 500⟩) ∧
    (∀ (t : List StoredEntity) (rid : List Char) (lim : Option Nat),
      (∀ ent ∈ t, ent.rowKey ≠ rid) →
        get_results_body (.ok t) (some rid) lim =
          .error ("ResourceNotFoundError".data)) := by
  constructor
  · intro table rid lim e herr
    unfold get_results
    rw [herr]
  · intro t rid lim hmiss
    have hfind : t.find? (fun ent => ent.rowKey == rid) = none := by
      rw [List.find?_eq_none]
      intro ent hent
      simpa [beq_iff_eq] using hmiss ent hent
    have hent : get_entity t rid = .error ("ResourceNotFoundError".data) := by
      unfold get_entity
      rw [hfind]
    unfold get_results_body
    dsimp only
    rw [hent]

/-- Witness: `C4_error_responses_amended` applied at a concrete empty table and
missing id, discharging both hypotheses. -/
theorem C4_error_responses_amended_witness :
    get_results_body (.ok ([] : List StoredEntity)) (some ("missing-id".data)) none =
      .error ("ResourceNotFoundError".data) ∧
    get_results (.ok ([] : List StoredEntity)) (some ("missing-id".data)) none =
      ⟨.obj [(("error".data), .str ("ResourceNotFoundError".data))],
       ("application/json".data), 500⟩ := by
  have hbody := C4_error_responses_amended.2 [] ("missing-id".data) none
    (fun ent hent => absurd hent (List.not_mem_nil ent))
  exact ⟨hbody, C4_error_responses_amended.1 _ _ _ _ hbody⟩

/-- A stored entity with all sub-documents null, for concrete tests. -/
def plainEntity (rk : List Char) (ts : Nat) : StoredEntity :=
  ⟨rk, rk, rk, ts, .null, .null, .null, .null, .null⟩

/-- Five stored records with distinct timestamps, in scrambled order. -/
def storeFive : List StoredEntity :=
  [plainEntity ("a".data) 3, plainEntity ("b".data) 1, plainEntity ("c".data) 5,
   plainEntity ("d".data) 2, plainEntity ("e".data) 4]

/-- Claim C9: the list query returns the stored records' projections sorted
by `analyzedAt` descending and truncated to at most `limit` entries (default
10 when the parameter is absent), with `count` equal to the number of
returned entries; and with `limit=2` against the 5-record store `storeFive`
it returns exactly the two most recently analyzed records, descending. -/
theorem C9_list_query (t : List StoredEntity) (limitParam : Option Nat) :
    (∃ sortedAll : List QueryRecord,
      sortedAll.Perm (t.map project_entity) ∧
      List.Sorted (fun a b => b.analyzedAt ≤ a.analyzedAt) sortedAll ∧
      get_results (.ok t) none limitParam =
        ⟨.obj [(("count".data), .num (sortedAll.take (limitParam.getD 10)).length),
               (("results".data),
                .arr ((sortedAll.take (limitParam.getD 10)).map recordJson))],
         ("application/json".data), 200⟩ ∧
      (sortedAll.take (limitParam.getD 10)).length =
        min (limitParam.getD 10) t.length) ∧
    get_results (.ok storeFive) none (some 2) =
      ⟨.obj [(("count".data), .num 2),
             (("results".data),
              .arr [recordJson (project_entity (plainEntity ("c".data) 5)),
                    recordJson (project_entity (plainEntity ("e".data) 4))])],
       ("application/json".data), 200⟩ := by
  constructor
  · refine ⟨(t.map project_entity).insertionSort byRecentFirst, ?_, ?_, ?_, ?_⟩
    · exact List.perm_insertionSort byRecentFirst _
    · exact List.sorted_insertionSort byRecentFirst _
    · rfl
    · rw [List.length_take, (List.perm_insertionSort byRecentFirst _).length_eq,
        List.length_map]
  · rfl

/- ## Orchestration engine -/

/-- The six activity functions the orchestrator schedules by name
(lines 66-69, 82, 83). -/
inductive ActivityName where
  | analyze_colors
  | analyze_objects
  | analyze_text
  | analyze_metadata
  | generate_report
  | store_results
deriving DecidableEq, Repr

/-- The input passed along with a `call_activity`: the Job for the four
analyzers (lines 66-69), the report-input dict of lines 74-80 for
`generate_report`, and the report for `store_results` (line 83).  `V` is the
abstract type of activity results (the JSON-serializable values the durable
framework passes between activities). -/
inductive ActivityInput (V : Type) where
  | job (j : Job)
  | reportInput (blob_name : List Char) (colors objects text metadata : V)
  | report (r : V)

/-- Models `yield context.task_all([t1, t2, t3, t4])` (line 72): the fan-in barrier
over the four scheduled analyzer tasks - it completes only when all four
have, with all four results, and faults when any task faulted (carrying the
first faulted task's error). -/
def task_all4 {V F : Type} (t1 t2 t3 t4 : Except F V) : Except F (V × V × V × V) :=
  match t1, t2, t3, t4 with
  | .ok r1, .ok r2, .ok r3, .ok r4 => .ok (r1, r2, r3, r4)
  | .error f, _, _, _ => .error f
  | _, .error f, _, _ => .error f
  | _, _, .error f, _ => .error f
  | _, _, _, .error f => .error f

/-- Models `image_analyzer_orchestrator` (lines 61-84), instrumented with the trace
of issued activity calls.  `run` is the activity oracle of the durable
runtime: `run a i` is the awaited outcome of activity `a` on input `i`,
`.error` meaning the activity raised an unrecoverable fault past its own
guard.  The first component is the orchestration's outcome (the stored
record acknowledgment, or the fault that failed the job); the second lists
every `context.call_activity` in program order. -/
def image_analyzer_orchestrator {V F : Type}
    (run : ActivityName → ActivityInput V → Except F V) (input_data : Job) :
    Except F V × List (ActivityName × ActivityInput V) :=
  let fanOut : List (ActivityName × ActivityInput V) :=
    [(.analyze_colors, .job input_data), (.analyze_objects, .job input_data),
     (.analyze_text, .job input_data), (.analyze_metadata, .job input_data)]
  match task_all4 (run .analyze_colors (.job input_data))
      (run .analyze_objects (.job input_data))
      (run .analyze_text (.job input_data))
      (run .analyze_metadata (.job input_data)) with
  | .error f => (.error f, fanOut)
  | .ok (r1, r2, r3, r4) =>
      let ri : ActivityInput V := .reportInput input_data.blob_name r1 r2 r3 r4
      match run .generate_report ri with
      | .error f => (.error f, fanOut ++ [(.generate_report, ri)])
      | .ok rep =>
          (run .store_results (.report rep),
           fanOut ++ [(.generate_report, ri), (.store_results, .report rep)])

/-- How many calls in a trace went to activity `a`. -/
def callsTo {V : Type} (a : ActivityName)
    (tr : List (ActivityName × ActivityInput V)) : Nat :=
  tr.countP (fun c => c.1 == a)

theorem task_all4_error_iff {V F : Type} (t1 t2 t3 t4 : Except F V) :
    (∃ f, task_all4 t1 t2 t3 t4 = .error f) ↔
      ((∃ f, t1 = .error f) ∨ (∃ f, t2 = .error f) ∨
       (∃ f, t3 = .error f) ∨ (∃ f, t4 = .error f)) := by
  cases t1 <;> cases t2 <;> cases t3 <;> cases t4 <;> simp [task_all4]

/-- Claim C1: every run fans out to the four analyzers first - they are the
first four calls of the trace, each invoked exactly once; the barrier faults
exactly when some analyzer call faults, and then the job fails with no
`generate_report` and no `store_results` call; when all four analyzer
results arrive, `generate_report` is called exactly once (position 4),
directly on those four results, and then `store_results` exactly once
(position 5) on the built report, strictly in that order, the orchestration
returning the store acknowledgment. -/
theorem C1_orchestrator_contract {V F : Type}
    (run : ActivityName → ActivityInput V → Except F V) (job : Job) :
    ((image_analyzer_orchestrator run job).2.take 4 =
      [(.analyze_colors, .job job), (.analyze_objects, .job job),
       (.analyze_text, .job job), (.analyze_metadata, .job job)]) ∧
    (∀ a : ActivityName,
      (a = .analyze_colors ∨ a = .analyze_objects ∨
       a = .analyze_text ∨ a = .analyze_metadata) →
      callsTo a (image_analyzer_orchestrator run job).2 = 1) ∧
    ((∃ f, task_all4 (run .analyze_colors (.job job)) (run .analyze_objects (.job job))
        (run .analyze_text (.job job)) (run .analyze_metadata (.job job)) = .error f) ↔
      ((∃ f, run .analyze_colors (.job job) = .error f) ∨
       (∃ f, run .analyze_objects (.job job) = .error f) ∨
       (∃ f, run .analyze_text (.job job) = .error f) ∨
       (∃ f, run .analyze_metadata (.job job) = .error f))) ∧
    (∀ f, task_all4 (run .analyze_colors (.job job)) (run .analyze_objects (.job job))
        (run .analyze_text (.job job)) (run .analyze_metadata (.job job)) = .error f →
      (image_analyzer_orchestrator run job).1 = .error f ∧
      callsTo .generate_report (image_analyzer_orchestrator run job).2 = 0 ∧
      callsTo .store_results (image_analyzer_orchestrator run job).2 = 0 ∧
      (image_analyzer_orchestrator run job).2.length = 4) ∧
    (∀ r1 r2 r3 r4, task_all4 (run .analyze_colors (.job job))
        (run .analyze_objects (.job job)) (run .analyze_text (.job job))
        (run .analyze_metadata (.job job)) = .ok (r1, r2, r3, r4) →
      (image_analyzer_orchestrator run job).2[4]? =
        some (.generate_report, .reportInput job.blob_name r1 r2 r3 r4) ∧
      callsTo .generate_report (image_analyzer_orchestrator run job).2 = 1 ∧
      (∀ f, run .generate_report (.reportInput job.blob_name r1 r2 r3 r4) = .error f →
        (image_analyzer_orchestrator run job).1 = .error f ∧
        callsTo .store_results (image_analyzer_orchestrator run job).2 = 0) ∧
      (∀ rep, run .generate_report (.reportInput job.blob_name r1 r2 r3 r4) = .ok rep →
        (image_analyzer_orchestrator run job).2[5]? =
          some (.store_results, .report rep) ∧
        callsTo .store_results (image_analyzer_orchestrator run job).2 = 1 ∧
        (image_analyzer_orchestrator run job).1 = run .store_results (.report rep) ∧
        (image_analyzer_orchestrator run job).2.length = 6)) := by
  have hiff := task_all4_error_iff (run .analyze_colors (.job job))
    (run .analyze_objects (.job job)) (run .analyze_text (.job job))
    (run .analyze_metadata (.job job))
  rcases htask : task_all4 (run .analyze_colors (.job job)) (run .analyze_objects (.job job))
      (run .analyze_text (.job job)) (run .analyze_metadata (.job job)) with f | r
  · rw [htask] at hiff
    have hred : image_analyzer_orchestrator run job =
        (.error f, [(.analyze_colors, .job job), (.analyze_objects, .job job),
          (.analyze_text, .job job), (.analyze_metadata, .job job)]) := by
      unfold image_analyzer_orchestrator
      rw [htask]
    refine ⟨?_, ?_, hiff, ?_, ?_⟩
    · rw [hred]
      rfl
    · intro a ha
      rw [hred]
      rcases ha with rfl | rfl | rfl | rfl <;> rfl
    · intro f2 hf2
      obtain rfl : f = f2 := Except.error.inj hf2
      rw [hred]
      exact ⟨rfl, rfl, rfl, rfl⟩
    · intro r1 r2 r3 r4 hok
      exact absurd hok (fun h => Except.noConfusion h)
  · rw [htask] at hiff
    obtain ⟨r1, r2, r3, r4⟩ := r
    rcases hg : run .generate_report (.reportInput job.blob_name r1 r2 r3 r4) with f2 | rep
    · have hred : image_analyzer_orchestrator run job =
          (.error f2, [(.analyze_colors, .job job), (.analyze_objects, .job job),
            (.analyze_text, .job job), (.analyze_metadata, .job job),
            (.generate_report, .reportInput job.blob_name r1 r2 r3 r4)]) := by
        unfold image_analyzer_orchestrator
        rw [htask]
        dsimp only
        rw [hg]
        rfl
      refine ⟨?_, ?_, hiff, ?_, ?_⟩
      · rw [hred]
        rfl
      · intro a ha
        rw [hred]
        rcases ha with rfl | rfl | rfl | rfl <;> rfl
      · intro f3 hf3
        exact absurd hf3 (fun h => Except.noConfusion h)
      · intro r1' r2' r3' r4' hok
        have h4 := Except.ok.inj hok
        rw [Prod.mk.injEq, Prod.mk.injEq, Prod.mk.injEq] at h4
        obtain ⟨rfl, rfl, rfl, rfl⟩ := h4
        refine ⟨?_, ?_, ?_, ?_⟩
        · rw [hred]
          rfl
        · rw [hred]
          rfl
        · intro f4 hf4
          rw [hg] at hf4
          obtain rfl : f2 = f4 := Except.error.inj hf4
          rw [hred]
          exact ⟨rfl, rfl⟩
        · intro rep hrep
          rw [hg] at hrep
          exact absurd hrep (fun h => Except.noConfusion h)
    · have hred : image_analyzer_orchestrator run job =
          (run .store_results (.report rep),
           [(.analyze_colors, .job job), (.analyze_objects, .job job),
            (.analyze_text, .job job), (.analyze_metadata, .job job),
            (.generate_report, .reportInput job.blob_name r1 r2 r3 r4),
            (.store_results, .report rep)]) := by
        unfold image_analyzer_orchestrator
        rw [htask]
        dsimp only
        rw [hg]
        rfl
      refine ⟨?_, ?_, hiff, ?_, ?_⟩
      · rw [hred]
        rfl
      · intro a ha
        rw [hred]
        rcases ha with rfl | rfl | rfl | rfl <;> rfl
      · intro f3 hf3
        exact absurd hf3 (fun h => Except.noConfusion h)
      · intro r1' r2' r3' r4' hok
        have h4 := Except.ok.inj hok
        rw [Prod.mk.injEq, Prod.mk.injEq, Prod.mk.injEq] at h4
        obtain ⟨rfl, rfl, rfl, rfl⟩ := h4
        refine ⟨?_, ?_, ?_, ?_⟩
        · rw [hred]
          rfl
        · rw [hred]
          rfl
        · intro f4 hf4
          rw [hg] at hf4
          exact absurd hf4 (fun h => Except.noConfusion h)
        · intro rep' hrep
          rw [hg] at hrep
          obtain rfl : rep = rep' := Except.ok.inj hrep
          rw [hred]
          exact ⟨rfl, rfl, rfl, rfl⟩

/-- A concrete always-succeeding activity oracle over `V = Nat`. -/
def runAllOk : ActivityName → ActivityInput Nat → Except (List Char) Nat :=
  fun _ _ => .ok 0

/-- A concrete job for the orchestrator witness. -/
def jobW : Job := ⟨("images/x.png".data), 1⟩

/-- Witness: `C1_orchestrator_contract` applied at the concrete oracle `runAllOk`,
discharging the barrier-success and report-success hypotheses. -/
theorem C1_orchestrator_contract_witness :
    task_all4 (runAllOk .analyze_colors (.job jobW)) (runAllOk .analyze_objects (.job jobW))
      (runAllOk .analyze_text (.job jobW)) (runAllOk .analyze_metadata (.job jobW)) =
      .ok (0, 0, 0, 0) ∧
    runAllOk .generate_report (.reportInput jobW.blob_name 0 0 0 0) = .ok 0 ∧
    (image_analyzer_orchestrator runAllOk jobW).2[5]? =
      some (.store_results, .report 0) ∧
    (image_analyzer_orchestrator runAllOk jobW).1 = .ok 0 := by
  have h := (C1_orchestrator_contract runAllOk jobW).2.2.2.2 0 0 0 0 rfl
  have h2 := h.2.2.2 0 rfl
  refine ⟨rfl, rfl, h2.1, ?_⟩
  rw [h2.2.2.1]
  rfl
